import Mathlib

/-!
Verification of the message-consumption and dead-letter engine of the
genjishimada bot (src/extensions/_queue_registry.py, src/extensions/rabbit.py,
src/utilities/base.py, src/utilities/extra.py).

The Python code is shallowly embedded: header maps become association lists,
bytes become `String`, exceptions become `Except String`, the asyncio
interleavings relevant to drain accounting become an explicit event trace, and
the external collaborators (msgspec decoding, the idempotency API, the UUID
parser, the job API) become function parameters of the embedded operations.
-/

/-- An AMQP header value: Python header maps hold primitives. -/
inductive HVal where
  | bool (b : Bool)
  | int (n : Int)
  | str (s : String)
deriving DecidableEq, Repr

/-- An incoming/outgoing AMQP message, mirroring the fields the code reads:
`body`, `headers`, `message_id`, `correlation_id`, `content_type`,
`content_encoding`, `delivery_mode`, `timestamp`, `type`, `app_id`, `user_id`.
Bytes are modelled as `String`; optional fields as `Option`. -/
structure AmqpMsg where
  body : String
  headers : List (String × HVal)
  contentType : Option String
  contentEncoding : Option String
  deliveryMode : Nat
  correlationId : Option String
  messageId : Option String
  timestamp : Option Nat
  mtype : Option String
  appId : Option String
  userId : Option String
deriving DecidableEq, Repr

/-- First-match association-list lookup: `headers.get(key)` on a Python dict
(whose keys are unique; first match equals dict lookup). -/
def headerLookup (hs : List (String × HVal)) (k : String) : Option HVal :=
  match hs with
  | [] => none
  | (k', v) :: t => if k' = k then some v else headerLookup t k

/-- Python truthiness of `headers.get(key, False)`: an absent key defaults to
`False`; `bool`, `int` and `str` values are truthy per Python rules. -/
def truthy (v : Option HVal) : Bool :=
  match v with
  | none => false
  | some (.bool b) => b
  | some (.int n) => n ≠ 0
  | some (.str s) => s ≠ ""

/-- Python dict update `\x7b**hs, k: v\x7d`: replace the (unique) existing
entry for `k` in place, or append a new entry when `k` is absent. -/
def setHeader (hs : List (String × HVal)) (k : String) (v : HVal) :
    List (String × HVal) :=
  match hs with
  | [] => [(k, v)]
  | (k', v') :: t => if k' = k then (k, v) :: t else (k', v') :: setHeader t k v

/-- Python truthiness of `message.message_id` (an `Optional[str]`): `None` and
the empty string are falsy; returns the id when truthy. -/
def truthyId (mid : Option String) : Option String :=
  match mid with
  | none => none
  | some s => if s = "" then none else some s

instance : DecidableEq (Except String Unit) := fun a b =>
  match a, b with
  | .ok (), .ok () => isTrue rfl
  | .ok (), .error _ => isFalse (by simp)
  | .error _, .ok () => isFalse (by simp)
  | .error x, .error y =>
    if h : x = y then isTrue (by rw [h]) else isFalse (by simp [h])

/-- Observable outcome of one run of the `queue_consumer` wrapper
(src/extensions/_queue_registry.py, `decorator.wrapper`): the Python
return/raise outcome plus the side-channel calls the wrapper made. -/
structure WrapOutcome where
  result : Except String Unit
  decodeCalls : Nat
  callbackCalls : Nat
  claimCalls : List String
  deleteCalls : List String
  deleteFailLogged : Bool
deriving DecidableEq, Repr

/-- The `wrapper` closure produced by `queue_consumer` in
src/extensions/_queue_registry.py lines 86-128, embedded step for step:

1. `headers.get(pytest_header, False)` truthy: return (no decode, no callback);
2. `msgspec.json.decode(message.body, type=struct_type)`: a decode failure
   raises (modelled by `decode` returning `none`);
3. non-idempotent: call the business callback and propagate its outcome;
4. idempotent with truthy `message.id`: claim; a non-claimed result returns
   without calling the callback; otherwise run the callback and, on exception,
   attempt to delete the claim (a delete failure is logged, never raised) and
   re-raise the original exception;
5. idempotent with falsy `message_id`: no claim, call the callback directly.

`decode`, `claim` and `deleteFails` stand for the external msgspec decoder and
idempotency API of the source. -/
def queue_consumer_wrapper {α : Type} (pytestHeader : String)
    (idempotent : Bool) (decode : String → Option α) (claim : String → Bool)
    (deleteFails : Bool) (callback : α → Except String Unit)
    (msg : AmqpMsg) : WrapOutcome :=
  if truthy (headerLookup msg.headers pytestHeader) then
    ⟨.ok (), 0, 0, [], [], false⟩
  else
    match decode msg.body with
    | none => ⟨.error "msgspec.DecodeError", 1, 0, [], [], false⟩
    | some event =>
      if idempotent = false then
        match callback event with
        | .ok _ => ⟨.ok (), 1, 1, [], [], false⟩
        | .error e => ⟨.error e, 1, 1, [], [], false⟩
      else
        match truthyId msg.messageId with
        | none =>
          match callback event with
          | .ok _ => ⟨.ok (), 1, 1, [], [], false⟩
          | .error e => ⟨.error e, 1, 1, [], [], false⟩
        | some mid =>
          if claim mid then
            match callback event with
            | .ok _ => ⟨.ok (), 1, 1, [mid], [], false⟩
            | .error e => ⟨.error e, 1, 1, [mid], [mid], deleteFails⟩
          else
            ⟨.ok (), 1, 0, [mid], [], false⟩

/-- The single acknowledgement decision `message.process()` takes for one
delivery. -/
inductive AckDecision where
  | ack
  | nack
deriving DecidableEq, Repr

/-- The scoped `async with message.process()` block in
`RabbitService._wrap_handler` (src/extensions/rabbit.py lines 205-220) issues
exactly one broker acknowledgement per delivery: ack on handler success, nack
(dead-letter) on handler exception. The surrounding `except` logs and never
re-raises, so no second decision can occur. -/
def processBlockAcks (r : Except String Unit) : List AckDecision :=
  match r with
  | .ok _ => [.ack]
  | .error _ => [.nack]

/-- One job-status PATCH attempt recorded by `BaseService._job_patch`
(src/utilities/base.py); best-effort, so recorded but never raising. -/
structure JobPatch where
  jobId : String
  status : String
deriving DecidableEq, Repr

/-- Observable outcome of one run of the `_wrap_job_status` inner closure:
the return/raise outcome, the PATCHes attempted, and how often the wrapped
handler was invoked. -/
structure JobWrapOutcome where
  result : Except String Unit
  patches : List JobPatch
  innerCalls : Nat
deriving DecidableEq, Repr

/-- The `_inner` closure of `BaseService._wrap_job_status`
(src/utilities/base.py lines 226-254), embedded step for step:

`job_id = UUID(message.correlation_id or "")` parses the correlation id (the
`or ""` turns a missing id into `""`); a parse failure raises before anything
else (`parseUUID` stands for Python `uuid.UUID`, which rejects `""` and every
non-UUID string). A parsed `UUID` object is always truthy, so `if job_id:`
always holds: a "processing" PATCH precedes the handler, a "succeeded" PATCH
follows success, a "failed" PATCH (plus re-raise) follows an exception. -/
def wrap_job_status (parseUUID : String → Option String)
    (inner : AmqpMsg → Except String Unit) (msg : AmqpMsg) : JobWrapOutcome :=
  match parseUUID (msg.correlationId.getD "") with
  | none => ⟨.error "ValueError: badly formed hexadecimal UUID string", [], 0⟩
  | some jid =>
    match inner msg with
    | .ok _ => ⟨.ok (), [⟨jid, "processing"⟩, ⟨jid, "succeeded"⟩], 1⟩
    | .error e => ⟨.error e, [⟨jid, "processing"⟩, ⟨jid, "failed"⟩], 1⟩

/-- Events touching the startup-drain state of `RabbitService`, in the order
the cooperative scheduler runs them.  `_set_up_queues` emits one `addCount n`
per queue (the passive-declare backlog count, added before that queue's
`consume`) and one final `endSetup` (the `_pending_startup_messages == 0`
check closing the setup coroutine).  Each delivery handled by the wrapper in
`_wrap_handler` emits `ackSuccess` (handler succeeded, message acked) or
`ackFail` (handler raised, message nacked — no drain bookkeeping).  Because
every `await` in `_set_up_queues` is a scheduling point and consumption of an
already-declared queue is live, ack events may interleave with later
`addCount` events. -/
inductive DrainEv where
  | addCount (n : Nat)
  | ackSuccess
  | ackFail
  | endSetup
deriving DecidableEq, Repr

/-- The drain-related fields of `RabbitService`:
`_pending_startup_messages` (a Python int, so it may go negative),
`_startup_draining`, and whether `_startup_drain_complete` has been `set()`
(once set, `wait_until_drained` returns immediately; while unset it blocks). -/
structure DrainState where
  pending : Int
  draining : Bool
  drainedEventSet : Bool
deriving DecidableEq, Repr

/-- Field values installed by `RabbitService.__init__`. -/
def initDrainState : DrainState := ⟨0, true, false⟩

/-- One drain-relevant step, transcribed from src/extensions/rabbit.py:
`addCount n` is `self._pending_startup_messages += n` (line 99); `ackSuccess`
is lines 210-215 (decrement while draining, flip and set the event at `<= 0`);
`ackFail` touches nothing (the exception path skips the drain block);
`endSetup` is lines 108-111 (flip and set the event when the counter is
exactly 0). -/
def drainStep (s : DrainState) (e : DrainEv) : DrainState :=
  match e with
  | .addCount n => { s with pending := s.pending + n }
  | .ackSuccess =>
    if s.draining then
      let p := s.pending - 1
      if p ≤ 0 then ⟨p, false, true⟩ else ⟨p, true, s.drainedEventSet⟩
    else s
  | .ackFail => s
  | .endSetup =>
    if s.pending = 0 then { s with draining := false, drainedEventSet := true }
    else s

/-- Run a trace of drain events from a starting state. -/
def runDrain (s : DrainState) (l : List DrainEv) : DrainState :=
  l.foldl drainStep s

/-- Number of successful acknowledgements in a trace. -/
def succAckCount (l : List DrainEv) : Nat :=
  (l.filter (fun e => e = DrainEv.ackSuccess)).length

/-- Total backlog registered by the `addCount` events of a trace: the N of
"N pre-existing messages across all registered queues at subscribe time". -/
def addTotal (l : List DrainEv) : Nat :=
  (l.map (fun e => match e with | DrainEv.addCount n => n | _ => 0)).sum

/-- Default of the `DLQ_HEADER_KEY` environment lookup in
src/extensions/rabbit.py line 29. -/
def DLQ_HEADER_KEY : String := "dlq_notified"

/-- Default of the `DLQ_MAX_PER_QUEUE_TICK` environment lookup in
src/extensions/rabbit.py line 31 (the hard per-queue per-sweep ceiling). -/
def DLQ_MAX_PER_QUEUE_TICK : Nat := 5000

/-- The alert text built in `RabbitService._process_one_dlq` line 317:
`f"### {dlq_name}\n<@141372217677053952>\n```json\n{msg.body}```"`.
The Python f-string interpolates the entire `msg.body` (rendering bytes with
a `b`-prefixed repr); no slicing or truncation is applied anywhere. -/
def alertContent (dlqName body : String) : String :=
  "### " ++ dlqName ++ "\n<@141372217677053952>\n```json\n" ++ body ++ "```"

/-- The header map of the republished copy, line 323:
`{**headers, DLQ_HEADER_KEY: True, "dlq_notified_at": int(time.time())}`. -/
def stampHeaders (hs : List (String × HVal)) (now : Int) :
    List (String × HVal) :=
  setHeader (setHeader hs DLQ_HEADER_KEY (.bool true)) "dlq_notified_at"
    (.int now)

/-- The `Message(...)` constructed at lines 324-336: same body, stamped
headers, and every identifying field copied from the original message. -/
def republishCopy (now : Int) (m : AmqpMsg) : AmqpMsg :=
  { body := m.body
    headers := stampHeaders m.headers now
    contentType := m.contentType
    contentEncoding := m.contentEncoding
    deliveryMode := m.deliveryMode
    correlationId := m.correlationId
    messageId := m.messageId
    timestamp := m.timestamp
    mtype := m.mtype
    appId := m.appId
    userId := m.userId }

/-- Broker-visible actions taken by one iteration of the sweep loop. -/
inductive DlqAction where
  | nackRequeue
  | alert (content : String)
  | republish (m : AmqpMsg)
  | ackOriginal
deriving DecidableEq, Repr

/-- Result of one `_process_one_dlq` run: the value returned (`processed`),
the queue contents afterwards, and the ordered broker actions taken. -/
structure SweepResult where
  processed : Nat
  queue : List AmqpMsg
  actions : List DlqAction
deriving DecidableEq, Repr

/-- The `while processed < cap` loop of `RabbitService._process_one_dlq`
(src/extensions/rabbit.py lines 296-341), with `fuel = cap - processed` as the
remaining budget.  The DLQ is the message list in broker order; `queue.get`
returns its head (an empty queue raises `QueueEmpty`, breaking the loop).  A
message already carrying `DLQ_HEADER_KEY: True` (an `is True` comparison, so
exactly a boolean `True`) is `nack(requeue=True)`-ed — back at the head of the
queue — and counted.  Any other message triggers, in order: the operator
alert, publication of the stamped copy (to the tail of the same DLQ), and the
ack of the original; it is then counted. -/
def dlqLoop (dlqName : String) (now : Int) :
    Nat → List AmqpMsg → SweepResult
  | 0, q => ⟨0, q, []⟩
  | _ + 1, [] => ⟨0, [], []⟩
  | fuel + 1, m :: rest =>
    if headerLookup m.headers DLQ_HEADER_KEY = some (.bool true) then
      let r := dlqLoop dlqName now fuel (m :: rest)
      ⟨r.processed + 1, r.queue, .nackRequeue :: r.actions⟩
    else
      let repub := republishCopy now m
      let r := dlqLoop dlqName now fuel (rest ++ [repub])
      ⟨r.processed + 1, r.queue,
        .alert (alertContent dlqName m.body) :: .republish repub ::
          .ackOriginal :: r.actions⟩

/-- `RabbitService._process_one_dlq` (lines 273-345): snapshot the depth via
passive declare, cap it by `DLQ_MAX_PER_QUEUE_TICK` (`hardCap` here, so the
configured value stays a parameter), return 0 outright when the cap is 0, and
otherwise run the bounded loop. -/
def process_one_dlq (hardCap : Nat) (dlqName : String) (now : Int)
    (q : List AmqpMsg) : SweepResult :=
  let initialCount := q.length
  let cap := min initialCount hardCap
  if cap = 0 then ⟨0, q, []⟩ else dlqLoop dlqName now cap q

/-- A job as observed by the poller: only its `status` field is read. -/
structure Job where
  status : String
deriving DecidableEq, Repr

/-- The `in_progress = {"queued", "processing"}` set of
`poll_job_until_complete` (src/utilities/extra.py line 44); membership test of
`job.status`. -/
def isInProgress (j : Job) : Bool :=
  ["queued", "processing"].contains j.status

/-- The interval sequence of the poll loop, in tenths of a second: starts at
1 (100 ms) and is updated by `interval = min(interval * 2, 5.0)` after every
sleep (cap 50 = 5 s). -/
def intervalSeq : Nat → Nat
  | 0 => 1
  | k + 1 => min (intervalSeq k * 2) 50

/-- Monotonic time elapsed (in tenths of a second, counting only the sleeps)
when the poll loop issues its k-th `get_job` call. -/
def elapsedSeq : Nat → Nat
  | 0 => 0
  | k + 1 => elapsedSeq k + intervalSeq k

/-- The `while True` loop of `poll_job_until_complete` (src/utilities/extra.py
lines 46-56), in tenths of a second: fetch the job (`getJob n` is the n-th
fetch), return it if its status is terminal, return it if at least 200 tenths
(20 s, `max_duration`) have elapsed, otherwise sleep `interval` and double the
interval up to 50 (5 s).  Termination: each sleep adds `interval ≥ 1` to
`elapsed`, which the budget check bounds by 200. -/
def pollLoop (getJob : Nat → Job) (n interval elapsed : Nat)
    (h : 0 < interval) : Job :=
  let job := getJob n
  if isInProgress job = false then job
  else if 200 ≤ elapsed then job
  else
    pollLoop getJob (n + 1) (min (interval * 2) 50) (elapsed + interval)
      (lt_min_iff.mpr ⟨by omega, by omega⟩)
termination_by 200 - elapsed
decreasing_by omega

/-- `poll_job_until_complete(api, job_id)`: the loop entered with
`interval = 0.1` and `elapsed = 0`.  The Python function always returns the
job object it last fetched (despite its `JobStatus | None` annotation it has
no path returning `None`). -/
def poll_job_until_complete (getJob : Nat → Job) : Job :=
  pollLoop getJob 0 1 0 (by decide)

/-- Looking up the key just written by `setHeader` yields the new value. -/
theorem headerLookup_setHeader_self (hs : List (String × HVal)) (k : String)
    (v : HVal) : headerLookup (setHeader hs k v) k = some v := by
  induction hs with
  | nil => simp [setHeader, headerLookup]
  | cons p t ih =>
    obtain ⟨a, b⟩ := p
    by_cases hak : a = k
    · simp [setHeader, hak, headerLookup]
    · simp [setHeader, hak, headerLookup, ih]

/-- Looking up any other key after `setHeader` is unchanged. -/
theorem headerLookup_setHeader_other (hs : List (String × HVal))
    (k : String) (v : HVal) (k' : String) (hne : k' ≠ k) :
    headerLookup (setHeader hs k v) k' = headerLookup hs k' := by
  induction hs with
  | nil =>
    simp [setHeader, headerLookup]
    intro hk
    exact absurd hk.symm hne
  | cons p t ih =>
    obtain ⟨a, b⟩ := p
    by_cases hak : a = k
    · subst hak
      have hne' : a ≠ k' := fun h => hne h.symm
      simp [setHeader, headerLookup, hne']
    · simp [setHeader, hak, headerLookup, ih]

/-- Each iteration of the sweep loop keeps the DLQ non-empty (a requeued
message stays at the head; a republished copy replaces the acked original at
the tail), so with a non-empty queue the loop consumes its whole budget. -/
theorem dlqLoop_count (dlqName : String) (now : Int) :
    ∀ (fuel : Nat) (q : List AmqpMsg), q ≠ [] →
      (dlqLoop dlqName now fuel q).processed = fuel := by
  intro fuel
  induction fuel with
  | zero => intro q _; rfl
  | succ fuel ih =>
    intro q hq
    match q with
    | [] => exact absurd rfl hq
    | m :: rest =>
      by_cases hh : headerLookup m.headers DLQ_HEADER_KEY = some (.bool true)
      · simp [dlqLoop, hh, ih (m :: rest) (by simp)]
      · simp [dlqLoop, hh,
          ih (rest ++ [republishCopy now m]) (by simp)]

/-- Every poll interval is at least one tenth of a second. -/
theorem intervalSeq_pos : ∀ n, 0 < intervalSeq n := by
  intro n
  induction n with
  | zero => decide
  | succ k ih =>
    have : 0 < intervalSeq k * 2 := by omega
    simp [intervalSeq]
    omega

/-- The budget is not yet exhausted at any of the first nine polls. -/
theorem elapsedSeq_lt_budget : ∀ n, n ≤ 8 → elapsedSeq n < 200 := by decide

/-- The budget is exhausted at the tenth poll (21.3 s have elapsed). -/
theorem elapsedSeq_nine : 200 ≤ elapsedSeq 9 := by decide

/-- Characterization of the poll loop entered at poll index n with the
matching interval and elapsed time: it returns the first terminal status it
observes, or the status observed at the tenth poll (index 9, at which the
20-second budget is exhausted) if none before was terminal. -/
theorem pollLoop_char (g : Nat → Job) :
    ∀ (fuel n : Nat), n + fuel = 9 →
      ∃ k, n ≤ k ∧ k ≤ 9 ∧
        pollLoop g n (intervalSeq n) (elapsedSeq n) (intervalSeq_pos n) =
          g k ∧
        (∀ i, n ≤ i → i < k → isInProgress (g i) = true) ∧
        (isInProgress (g k) = false ∨ k = 9) := by
  intro fuel
  induction fuel with
  | zero =>
    intro n hn
    have hn9 : n = 9 := by omega
    subst hn9
    refine ⟨9, le_refl 9, le_refl 9, ?_, ?_, Or.inr rfl⟩
    · rw [pollLoop]
      by_cases hp : isInProgress (g 9) = false
      · simp [hp]
      · simp [hp, elapsedSeq_nine]
    · intro i h1 h2
      omega
  | succ fuel ih =>
    intro n hn
    have hle : n ≤ 8 := by omega
    by_cases hp : isInProgress (g n) = false
    · refine ⟨n, le_refl n, by omega, ?_, ?_, Or.inl hp⟩
      · rw [pollLoop]
        simp [hp]
      · intro i h1 h2
        omega
    · have hp' : isInProgress (g n) = true := by
        cases hEq : isInProgress (g n) <;> simp_all
      have hel : ¬ 200 ≤ elapsedSeq n := by
        have := elapsedSeq_lt_budget n hle
        omega
      have hstep :
          pollLoop g n (intervalSeq n) (elapsedSeq n) (intervalSeq_pos n) =
            pollLoop g (n + 1) (intervalSeq (n + 1)) (elapsedSeq (n + 1))
              (intervalSeq_pos (n + 1)) := by
        rw [pollLoop]
        simp [hp', hel]
        rfl
      obtain ⟨k, hk1, hk2, hk3, hk4, hk5⟩ := ih (n + 1) (by omega)
      refine ⟨k, by omega, hk2, by rw [hstep]; exact hk3, ?_, hk5⟩
      intro i hi1 hi2
      rcases Nat.eq_or_lt_of_le hi1 with he | hl
      · rw [← he]
        exact hp'
      · exact hk4 i hl hi2

/-- C8: `poll_job_until_complete` polls at an increasing interval that starts
at 1 tenth of a second (100 ms) and doubles up to a cap of 50 tenths (5 s);
the whole run stays within 213 tenths (21.3 s, the 20-second budget plus the
final capped sleep) of slept time; the first non-in-progress status observed
is returned immediately (every earlier poll saw an in-progress status); and
when the budget is exhausted (poll index 9) the last observed status is
returned even if still in progress.  The Python function always returns the
job it last fetched — it has no `None`-returning path. -/
theorem poll_job_until_complete_spec (g : Nat → Job) :
    (∃ k, k ≤ 9 ∧
      poll_job_until_complete g = g k ∧
      (∀ i, i < k → isInProgress (g i) = true) ∧
      (isInProgress (g k) = false ∨ k = 9) ∧
      elapsedSeq k ≤ 213) ∧
    intervalSeq 0 = 1 ∧
    (∀ j, intervalSeq (j + 1) = min (intervalSeq j * 2) 50) ∧
    (∀ j, intervalSeq j ≤ 50) := by
  refine ⟨?_, rfl, fun j => rfl, ?_⟩
  · obtain ⟨k, _, hk2, hk3, hk4, hk5⟩ := pollLoop_char g 9 0 (by omega)
    have hbound : ∀ k', k' < 10 → elapsedSeq k' ≤ 213 := by decide
    refine ⟨k, hk2, ?_, ?_, hk5, hbound k (by omega)⟩
    · unfold poll_job_until_complete
      exact hk3
    · intro i hi
      exact hk4 i (Nat.zero_le i) hi
  · intro j
    match j with
    | 0 => decide
    | j' + 1 =>
      simp [intervalSeq]

/-- C1: evaluation of the drain accounting at a reachable interleaved startup
schedule, two queues with backlogs 1 and 2 (N = 3 pre-existing messages).
`_set_up_queues` adds queue A's count (1) and starts consuming it; while the
setup coroutine is suspended in the `await`s declaring queue B, queue A's
single backlog message is handled and acknowledged — `_pending_startup_messages`
drops to 0, so the handler flips `_startup_draining` and sets
`_startup_drain_complete`; only then is queue B's count (2) added and setup's
final check reached.  The drained event is thus set — `wait_until_drained()`
returns — after exactly 1 successful acknowledgment although N = 3, against
both the claim and the code's own docstrings ("Block until all startup
messages have been processed"). -/
theorem drain_barrier_race_evaluation :
    runDrain initDrainState
        [DrainEv.addCount 1, DrainEv.ackSuccess, DrainEv.addCount 2,
          DrainEv.endSetup] =
      ⟨2, false, true⟩ ∧
    succAckCount
        [DrainEv.addCount 1, DrainEv.ackSuccess, DrainEv.addCount 2,
          DrainEv.endSetup] = 1 ∧
    addTotal
        [DrainEv.addCount 1, DrainEv.ackSuccess, DrainEv.addCount 2,
          DrainEv.endSetup] = 3 := by
  decide

/-- C2: one `_process_one_dlq` sweep over a DLQ of snapshot depth D processes
exactly `min D hardCap` messages — hence at most D — even though every
message it touches goes back into the same queue (a requeue or a republished
copy keeps the depth constant, so the loop never runs out of messages and
only the snapshot cap stops it). -/
theorem process_one_dlq_count_bounded (hardCap : Nat) (dlqName : String)
    (now : Int) (q : List AmqpMsg) :
    (process_one_dlq hardCap dlqName now q).processed =
      min q.length hardCap ∧
    (process_one_dlq hardCap dlqName now q).processed ≤ q.length := by
  have hmain : (process_one_dlq hardCap dlqName now q).processed =
      min q.length hardCap := by
    unfold process_one_dlq
    by_cases hc : min q.length hardCap = 0
    · simp [hc]
    · have hq : q ≠ [] := by
        intro h
        rw [h] at hc
        simp at hc
      simp [hc, dlqLoop_count dlqName now _ q hq]
  refine ⟨hmain, ?_⟩
  rw [hmain]
  exact Nat.min_le_left _ _

/-- C3: when an idempotent handler's business callback raises after the claim
was successfully taken, the wrapper attempts exactly one claim deletion, a
deletion failure only sets the logged flag (it is swallowed), and the original
callback exception is re-raised whether or not the deletion failed, so the
delivery is nacked. -/
theorem idempotent_claim_deleted_on_callback_error {α : Type}
    (pytestHeader : String) (decode : String → Option α)
    (claim : String → Bool) (deleteFails : Bool)
    (callback : α → Except String Unit) (msg : AmqpMsg) (mid : String)
    (ev : α) (e : String)
    (hb : truthy (headerLookup msg.headers pytestHeader) = false)
    (hd : decode msg.body = some ev)
    (hm : truthyId msg.messageId = some mid)
    (hc : claim mid = true)
    (hcb : callback ev = .error e) :
    (queue_consumer_wrapper pytestHeader true decode claim deleteFails
        callback msg).result = .error e ∧
    (queue_consumer_wrapper pytestHeader true decode claim deleteFails
        callback msg).deleteCalls = [mid] ∧
    (queue_consumer_wrapper pytestHeader true decode claim deleteFails
        callback msg).deleteFailLogged = deleteFails ∧
    processBlockAcks (queue_consumer_wrapper pytestHeader true decode claim
        deleteFails callback msg).result = [.nack] := by
  simp [queue_consumer_wrapper, hb, hd, hm, hc, hcb, processBlockAcks]

/-- Witness for C3 at a concrete delivery whose callback raises and whose
claim deletion also fails. -/
theorem idempotent_claim_deleted_on_callback_error_witness :
    (queue_consumer_wrapper "x-pytest-enabled" true
        (fun _ : String => some ()) (fun _ => true) true
        (fun _ : Unit => Except.error "boom")
        ⟨"payload", [], none, none, 2, none, some "m1", none, none, none,
          none⟩).result = Except.error "boom" ∧
    (queue_consumer_wrapper "x-pytest-enabled" true
        (fun _ : String => some ()) (fun _ => true) true
        (fun _ : Unit => Except.error "boom")
        ⟨"payload", [], none, none, 2, none, some "m1", none, none, none,
          none⟩).deleteCalls = ["m1"] ∧
    (queue_consumer_wrapper "x-pytest-enabled" true
        (fun _ : String => some ()) (fun _ => true) true
        (fun _ : Unit => Except.error "boom")
        ⟨"payload", [], none, none, 2, none, some "m1", none, none, none,
          none⟩).deleteFailLogged = true ∧
    processBlockAcks (queue_consumer_wrapper "x-pytest-enabled" true
        (fun _ : String => some ()) (fun _ => true) true
        (fun _ : Unit => Except.error "boom")
        ⟨"payload", [], none, none, 2, none, some "m1", none, none, none,
          none⟩).result = [.nack] :=
  idempotent_claim_deleted_on_callback_error "x-pytest-enabled"
    (fun _ : String => some ()) (fun _ => true) true
    (fun _ : Unit => Except.error "boom")
    ⟨"payload", [], none, none, 2, none, some "m1", none, none, none, none⟩
    "m1" () "boom" rfl rfl (by decide) rfl rfl

/-- Counterexample to C4 as stated: a message whose body cannot be decoded
(the decoder rejects every body) but whose headers carry the test-bypass flag
is acknowledged — zero negative acknowledgments — because the pytest check at
the top of the wrapper returns before `msgspec.json.decode` ever runs.  C4's
universal claim that every undecodable message is nacked exactly once is
therefore false. -/
theorem decode_failure_pytest_ack_counterexample :
    processBlockAcks
        ((queue_consumer_wrapper "x-pytest-enabled" false
            (fun _ : String => (none : Option Unit)) (fun _ => false) false
            (fun _ : Unit => Except.ok ())
            ⟨"not valid json", [("x-pytest-enabled", HVal.bool true)], none,
              none, 2, none, none, none, none, none, none⟩).result) =
      [AckDecision.ack] ∧
    (queue_consumer_wrapper "x-pytest-enabled" false
        (fun _ : String => (none : Option Unit)) (fun _ => false) false
        (fun _ : Unit => Except.ok ())
        ⟨"not valid json", [("x-pytest-enabled", HVal.bool true)], none,
          none, 2, none, none, none, none, none, none⟩).callbackCalls = 0 ∧
    (queue_consumer_wrapper "x-pytest-enabled" false
        (fun _ : String => (none : Option Unit)) (fun _ => false) false
        (fun _ : Unit => Except.ok ())
        ⟨"not valid json", [("x-pytest-enabled", HVal.bool true)], none,
          none, 2, none, none, none, none, none, none⟩).decodeCalls = 0 := by
  refine ⟨rfl, rfl, rfl⟩

/-- C4 (amended): for every incoming message without a truthy test-bypass
header whose body cannot be decoded, the wrapper raises the decode error
without invoking the business callback, decoding is attempted exactly once
(no local retry), no idempotency claim is touched, and the scoped
`message.process()` block issues exactly one negative acknowledgment, routing
the message to the DLQ. -/
theorem decode_failure_dead_lettered {α : Type} (pytestHeader : String)
    (idempotent : Bool) (decode : String → Option α) (claim : String → Bool)
    (deleteFails : Bool) (callback : α → Except String Unit) (msg : AmqpMsg)
    (hb : truthy (headerLookup msg.headers pytestHeader) = false)
    (hd : decode msg.body = none) :
    (queue_consumer_wrapper pytestHeader idempotent decode claim deleteFails
        callback msg).result = .error "msgspec.DecodeError" ∧
    processBlockAcks (queue_consumer_wrapper pytestHeader idempotent decode
        claim deleteFails callback msg).result = [.nack] ∧
    (queue_consumer_wrapper pytestHeader idempotent decode claim deleteFails
        callback msg).callbackCalls = 0 ∧
    (queue_consumer_wrapper pytestHeader idempotent decode claim deleteFails
        callback msg).decodeCalls = 1 ∧
    (queue_consumer_wrapper pytestHeader idempotent decode claim deleteFails
        callback msg).claimCalls = [] := by
  simp [queue_consumer_wrapper, hb, hd, processBlockAcks]

/-- Witness for the amended C4 at a concrete undecodable delivery without the
bypass header. -/
theorem decode_failure_dead_lettered_witness :
    (queue_consumer_wrapper "x-pytest-enabled" true
        (fun _ : String => (none : Option Unit)) (fun _ => false) false
        (fun _ : Unit => Except.ok ())
        ⟨"garbage", [], none, none, 2, none, some "m1", none, none, none,
          none⟩).result = Except.error "msgspec.DecodeError" ∧
    processBlockAcks (queue_consumer_wrapper "x-pytest-enabled" true
        (fun _ : String => (none : Option Unit)) (fun _ => false) false
        (fun _ : Unit => Except.ok ())
        ⟨"garbage", [], none, none, 2, none, some "m1", none, none, none,
          none⟩).result = [.nack] ∧
    (queue_consumer_wrapper "x-pytest-enabled" true
        (fun _ : String => (none : Option Unit)) (fun _ => false) false
        (fun _ : Unit => Except.ok ())
        ⟨"garbage", [], none, none, 2, none, some "m1", none, none, none,
          none⟩).callbackCalls = 0 ∧
    (queue_consumer_wrapper "x-pytest-enabled" true
        (fun _ : String => (none : Option Unit)) (fun _ => false) false
        (fun _ : Unit => Except.ok ())
        ⟨"garbage", [], none, none, 2, none, some "m1", none, none, none,
          none⟩).decodeCalls = 1 ∧
    (queue_consumer_wrapper "x-pytest-enabled" true
        (fun _ : String => (none : Option Unit)) (fun _ => false) false
        (fun _ : Unit => Except.ok ())
        ⟨"garbage", [], none, none, 2, none, some "m1", none, none, none,
          none⟩).claimCalls = [] :=
  decode_failure_dead_lettered "x-pytest-enabled" true
    (fun _ : String => (none : Option Unit)) (fun _ => false) false
    (fun _ : Unit => Except.ok ())
    ⟨"garbage", [], none, none, 2, none, some "m1", none, none, none, none⟩
    rfl rfl

/-- C5: a truthy test-bypass header short-circuits the wrapper before the
decode step, so the business callback is never invoked and the body is never
decoded, regardless of payload validity; the wrapper returns normally, so the
delivery is acknowledged. -/
theorem pytest_bypass_no_callback {α : Type} (pytestHeader : String)
    (idempotent : Bool) (decode : String → Option α) (claim : String → Bool)
    (deleteFails : Bool) (callback : α → Except String Unit) (msg : AmqpMsg)
    (hb : truthy (headerLookup msg.headers pytestHeader) = true) :
    (queue_consumer_wrapper pytestHeader idempotent decode claim deleteFails
        callback msg).result = .ok () ∧
    processBlockAcks (queue_consumer_wrapper pytestHeader idempotent decode
        claim deleteFails callback msg).result = [.ack] ∧
    (queue_consumer_wrapper pytestHeader idempotent decode claim deleteFails
        callback msg).callbackCalls = 0 ∧
    (queue_consumer_wrapper pytestHeader idempotent decode claim deleteFails
        callback msg).decodeCalls = 0 := by
  simp [queue_consumer_wrapper, hb, processBlockAcks]

/-- Witness for C5 at a concrete bypass delivery whose payload is invalid
(the decoder rejects every body). -/
theorem pytest_bypass_no_callback_witness :
    (queue_consumer_wrapper "x-pytest-enabled" true
        (fun _ : String => (none : Option Unit)) (fun _ => true) false
        (fun _ : Unit => Except.error "should never run")
        ⟨"invalid payload", [("x-pytest-enabled", HVal.bool true)], none,
          none, 2, none, some "m1", none, none, none, none⟩).result =
      Except.ok () ∧
    processBlockAcks (queue_consumer_wrapper "x-pytest-enabled" true
        (fun _ : String => (none : Option Unit)) (fun _ => true) false
        (fun _ : Unit => Except.error "should never run")
        ⟨"invalid payload", [("x-pytest-enabled", HVal.bool true)], none,
          none, 2, none, some "m1", none, none, none, none⟩).result =
      [.ack] ∧
    (queue_consumer_wrapper "x-pytest-enabled" true
        (fun _ : String => (none : Option Unit)) (fun _ => true) false
        (fun _ : Unit => Except.error "should never run")
        ⟨"invalid payload", [("x-pytest-enabled", HVal.bool true)], none,
          none, 2, none, some "m1", none, none, none, none⟩).callbackCalls =
      0 ∧
    (queue_consumer_wrapper "x-pytest-enabled" true
        (fun _ : String => (none : Option Unit)) (fun _ => true) false
        (fun _ : Unit => Except.error "should never run")
        ⟨"invalid payload", [("x-pytest-enabled", HVal.bool true)], none,
          none, 2, none, some "m1", none, none, none, none⟩).decodeCalls =
      0 :=
  pytest_bypass_no_callback "x-pytest-enabled" true
    (fun _ : String => (none : Option Unit)) (fun _ => true) false
    (fun _ : Unit => Except.error "should never run")
    ⟨"invalid payload", [("x-pytest-enabled", HVal.bool true)], none, none,
      2, none, some "m1", none, none, none, none⟩ (by decide)

/-- C9: when an idempotent handler receives a message whose `message_id` is
missing (or empty, which Python treats as falsy), `claim_data` stays `None`:
no idempotency claim is attempted — whatever the claim API would answer — and
the business callback runs unconditionally, its outcome propagated unchanged.
Every duplicate delivery of such a message therefore re-runs the callback:
there is no duplicate protection without a message id. -/
theorem missing_message_id_no_claim {α : Type} (pytestHeader : String)
    (decode : String → Option α) (claim : String → Bool) (deleteFails : Bool)
    (callback : α → Except String Unit) (msg : AmqpMsg) (ev : α)
    (hb : truthy (headerLookup msg.headers pytestHeader) = false)
    (hd : decode msg.body = some ev)
    (hm : truthyId msg.messageId = none) :
    (queue_consumer_wrapper pytestHeader true decode claim deleteFails
        callback msg).claimCalls = [] ∧
    (queue_consumer_wrapper pytestHeader true decode claim deleteFails
        callback msg).callbackCalls = 1 ∧
    (queue_consumer_wrapper pytestHeader true decode claim deleteFails
        callback msg).result = callback ev := by
  rcases hcb : callback ev with u | e
  · simp [queue_consumer_wrapper, hb, hd, hm, hcb]
  · simp [queue_consumer_wrapper, hb, hd, hm, hcb]

/-- Witness for C9 at a concrete delivery without a message id, against a
claim API that would refuse every claim (it is never consulted). -/
theorem missing_message_id_no_claim_witness :
    (queue_consumer_wrapper "x-pytest-enabled" true
        (fun _ : String => some ()) (fun _ => false) false
        (fun _ : Unit => Except.ok ())
        ⟨"payload", [], none, none, 2, none, none, none, none, none,
          none⟩).claimCalls = [] ∧
    (queue_consumer_wrapper "x-pytest-enabled" true
        (fun _ : String => some ()) (fun _ => false) false
        (fun _ : Unit => Except.ok ())
        ⟨"payload", [], none, none, 2, none, none, none, none, none,
          none⟩).callbackCalls = 1 ∧
    (queue_consumer_wrapper "x-pytest-enabled" true
        (fun _ : String => some ()) (fun _ => false) false
        (fun _ : Unit => Except.ok ())
        ⟨"payload", [], none, none, 2, none, none, none, none, none,
          none⟩).result =
      (fun _ : Unit => Except.ok ()) () :=
  missing_message_id_no_claim "x-pytest-enabled"
    (fun _ : String => some ()) (fun _ => false) false
    (fun _ : Unit => Except.ok ())
    ⟨"payload", [], none, none, 2, none, none, none, none, none, none⟩
    () rfl rfl rfl

/-- C10: when the correlation id of a message handled through
`_wrap_job_status` is missing or not a valid UUID string,
`UUID(message.correlation_id or "")` raises before anything else: the wrapped
business handler is never invoked, no job-status PATCH is attempted, and the
exception propagates into the consumer's `message.process()` block, which
issues the single negative acknowledgment that dead-letters the message. -/
theorem invalid_correlation_id_dead_lettered
    (parseUUID : String → Option String)
    (inner : AmqpMsg → Except String Unit) (msg : AmqpMsg)
    (hp : parseUUID (msg.correlationId.getD "") = none) :
    (wrap_job_status parseUUID inner msg).innerCalls = 0 ∧
    (wrap_job_status parseUUID inner msg).patches = [] ∧
    processBlockAcks (wrap_job_status parseUUID inner msg).result =
      [.nack] := by
  simp [wrap_job_status, hp, processBlockAcks]

/-- Witness for C10 at a concrete message with a missing correlation id,
against a UUID parser that (like Python's) rejects the empty string. -/
theorem invalid_correlation_id_dead_lettered_witness :
    (wrap_job_status (fun _ : String => none)
        (fun _ : AmqpMsg => Except.ok ())
        ⟨"payload", [], none, none, 2, none, some "m1", none, none, none,
          none⟩).innerCalls = 0 ∧
    (wrap_job_status (fun _ : String => none)
        (fun _ : AmqpMsg => Except.ok ())
        ⟨"payload", [], none, none, 2, none, some "m1", none, none, none,
          none⟩).patches = [] ∧
    processBlockAcks (wrap_job_status (fun _ : String => none)
        (fun _ : AmqpMsg => Except.ok ())
        ⟨"payload", [], none, none, 2, none, some "m1", none, none, none,
          none⟩).result = [.nack] :=
  invalid_correlation_id_dead_lettered (fun _ : String => none)
    (fun _ : AmqpMsg => Except.ok ())
    ⟨"payload", [], none, none, 2, none, some "m1", none, none, none, none⟩
    rfl

/-- C6: when the sweep loop pulls a DLQ message already carrying the
`dlq_notified: True` header, that iteration contributes exactly one
`nack(requeue=True)` — the very same message goes back to the queue — with no
alert, no republished copy, no header re-stamp, and no ack of a copy; the
message is still counted against the snapshot cap. -/
theorem notified_dlq_message_requeued_without_alert (dlqName : String)
    (now : Int) (fuel : Nat) (m : AmqpMsg) (rest : List AmqpMsg)
    (h : headerLookup m.headers DLQ_HEADER_KEY = some (HVal.bool true)) :
    dlqLoop dlqName now (fuel + 1) (m :: rest) =
      ⟨(dlqLoop dlqName now fuel (m :: rest)).processed + 1,
        (dlqLoop dlqName now fuel (m :: rest)).queue,
        DlqAction.nackRequeue ::
          (dlqLoop dlqName now fuel (m :: rest)).actions⟩ := by
  simp [dlqLoop, h]

/-- Witness for C6: one sweep iteration over a single already-notified
message only requeues it. -/
theorem notified_dlq_message_requeued_without_alert_witness :
    dlqLoop "jobs.create.dlq" 7 (0 + 1)
        ([⟨"payload", [("dlq_notified", HVal.bool true)], none, none, 2,
            none, some "m1", none, none, none, none⟩]) =
      ⟨(dlqLoop "jobs.create.dlq" 7 0
            [⟨"payload", [("dlq_notified", HVal.bool true)], none, none, 2,
              none, some "m1", none, none, none, none⟩]).processed + 1,
        (dlqLoop "jobs.create.dlq" 7 0
            [⟨"payload", [("dlq_notified", HVal.bool true)], none, none, 2,
              none, some "m1", none, none, none, none⟩]).queue,
        DlqAction.nackRequeue ::
          (dlqLoop "jobs.create.dlq" 7 0
              [⟨"payload", [("dlq_notified", HVal.bool true)], none, none,
                2, none, some "m1", none, none, none, none⟩]).actions⟩ :=
  notified_dlq_message_requeued_without_alert "jobs.create.dlq" 7 0
    ⟨"payload", [("dlq_notified", HVal.bool true)], none, none, 2, none,
      some "m1", none, none, none, none⟩ [] (by decide)

/-- Counterexample to C7 as stated: the alert is NOT a truncated rendering of
the message body.  `_process_one_dlq` builds the alert with
`f"### \x7bdlq_name\x7d..."` interpolating the entire `msg.body` with no
slicing: at a 3000-character body the alert literally embeds all 3000
characters (its length is the body's plus the 53 characters of scaffolding
around it), well past any plausible truncation bound (Discord itself caps
messages at 2000). -/
theorem alert_body_untruncated_counterexample :
    alertContent "jobs.create.dlq" (String.mk (List.replicate 3000 'a')) =
      "### jobs.create.dlq\n<@141372217677053952>\n```json\n" ++
        String.mk (List.replicate 3000 'a') ++ "```" ∧
    (alertContent "jobs.create.dlq"
        (String.mk (List.replicate 3000 'a'))).length = 3053 := by
  have hpre : "### " ++ "jobs.create.dlq" ++
      "\n<@141372217677053952>\n```json\n" =
      "### jobs.create.dlq\n<@141372217677053952>\n```json\n" := by decide
  have hB : (String.mk (List.replicate 3000 'a')).length = 3000 := by
    rw [String.length_mk, List.length_replicate]
  constructor
  · simp only [alertContent]
    rw [hpre]
  · simp only [alertContent]
    rw [String.length_append, String.length_append, String.length_append,
      String.length_append, hB]
    decide

/-- C7 (amended): for a not-yet-notified DLQ message at the head of the
sweep, the iteration emits, in order, the alert (DLQ name plus the FULL,
untruncated rendering of the body), the republished stamped copy, and only
then the ack of the original.  The copy preserves body, content_type,
content_encoding, delivery_mode, correlation_id and message_id unchanged
(timestamp, type, app_id and user_id too), and its headers equal the original
headers plus `dlq_notified: True` and the integer `dlq_notified_at`
timestamp, every other key untouched. -/
theorem dlq_alert_republish_frame (dlqName : String) (now : Int)
    (fuel : Nat) (m : AmqpMsg) (rest : List AmqpMsg)
    (h : headerLookup m.headers DLQ_HEADER_KEY ≠ some (HVal.bool true)) :
    (dlqLoop dlqName now (fuel + 1) (m :: rest)).actions =
      DlqAction.alert (alertContent dlqName m.body) ::
        DlqAction.republish (republishCopy now m) :: DlqAction.ackOriginal ::
        (dlqLoop dlqName now fuel
          (rest ++ [republishCopy now m])).actions ∧
    (republishCopy now m).body = m.body ∧
    (republishCopy now m).contentType = m.contentType ∧
    (republishCopy now m).contentEncoding = m.contentEncoding ∧
    (republishCopy now m).deliveryMode = m.deliveryMode ∧
    (republishCopy now m).correlationId = m.correlationId ∧
    (republishCopy now m).messageId = m.messageId ∧
    (republishCopy now m).timestamp = m.timestamp ∧
    headerLookup (republishCopy now m).headers DLQ_HEADER_KEY =
      some (HVal.bool true) ∧
    headerLookup (republishCopy now m).headers "dlq_notified_at" =
      some (HVal.int now) ∧
    (∀ k, k ≠ DLQ_HEADER_KEY → k ≠ "dlq_notified_at" →
      headerLookup (republishCopy now m).headers k =
        headerLookup m.headers k) ∧
    alertContent dlqName m.body =
      "### " ++ dlqName ++ "\n<@141372217677053952>\n```json\n" ++
        m.body ++ "```" := by
  refine ⟨?_, rfl, rfl, rfl, rfl, rfl, rfl, rfl, ?_, ?_, ?_, rfl⟩
  · simp [dlqLoop, h]
  · show headerLookup (stampHeaders m.headers now) DLQ_HEADER_KEY =
      some (HVal.bool true)
    unfold stampHeaders
    rw [headerLookup_setHeader_other _ _ _ _ (by decide),
      headerLookup_setHeader_self]
  · show headerLookup (stampHeaders m.headers now) "dlq_notified_at" =
      some (HVal.int now)
    unfold stampHeaders
    rw [headerLookup_setHeader_self]
  · intro k hk1 hk2
    show headerLookup (stampHeaders m.headers now) k = headerLookup m.headers k
    unfold stampHeaders
    rw [headerLookup_setHeader_other _ _ _ _ hk2,
      headerLookup_setHeader_other _ _ _ _ hk1]

/-- Witness for the amended C7 at a concrete not-yet-notified message with
every preserved field populated. -/
theorem dlq_alert_republish_frame_witness :
    (dlqLoop "jobs.create.dlq" 42 (0 + 1)
        [⟨"some body", [("k", HVal.str "v")], some "application/json",
          some "utf-8", 2, some "c1", some "m1", some 9, some "t",
          some "app", some "u"⟩]).actions =
      DlqAction.alert (alertContent "jobs.create.dlq" "some body") ::
        DlqAction.republish (republishCopy 42
          ⟨"some body", [("k", HVal.str "v")], some "application/json",
            some "utf-8", 2, some "c1", some "m1", some 9, some "t",
            some "app", some "u"⟩) :: DlqAction.ackOriginal ::
        (dlqLoop "jobs.create.dlq" 42 0
          ([] ++ [republishCopy 42
            ⟨"some body", [("k", HVal.str "v")], some "application/json",
              some "utf-8", 2, some "c1", some "m1", some 9, some "t",
              some "app", some "u"⟩])).actions :=
  (dlq_alert_republish_frame "jobs.create.dlq" 42 0
    ⟨"some body", [("k", HVal.str "v")], some "application/json",
      some "utf-8", 2, some "c1", some "m1", some 9, some "t", some "app",
      some "u"⟩ [] (by decide)).1
